import Mathlib

/-!
Shallow embedding of `main.py` of the gradient-bot repository: the
per-account lifecycle orchestrator (worker monitoring state machine and
retry budget), the six-stage setup pipeline, the account and proxy input
parsers, and the fleet manager's precondition checks and staggered launch.

External collaborators (the Selenium driver, the filesystem, sleeping) are
out of the embedding; the observable outcomes they produce (health labels,
stage success/failure) are inputs to the embedded functions.  The Python
standard-library functions the source calls (`str.strip`, `str.lower`,
`str.split`, `urllib.parse.urlparse`) are modelled explicitly below.
-/

namespace GradientBot

/-- Model of Python `str.strip` on the character list of a string:
drop whitespace from both ends. -/
def pythonStripChars (l : List Char) : List Char :=
  ((l.dropWhile Char.isWhitespace).reverse.dropWhile Char.isWhitespace).reverse

/-- Model of Python `str.strip`. -/
def pythonStrip (s : String) : String :=
  String.mk (pythonStripChars s.data)

/-- Model of Python `str.lower` (the labels involved are ASCII). -/
def pythonLower (s : String) : String :=
  String.mk (s.data.map Char.toLower)

/-- Health-label classification performed by the monitoring loop
(`is_good = health_status.lower() == "good"`, main.py line 456). -/
def isGoodLabel (label : String) : Bool :=
  pythonLower label == "good"

/-- The mutable per-worker fields of `ChromeProxyAutomation` that the
monitoring/retry logic reads and writes (`__init__`, main.py lines 188-202). -/
structure WorkerState where
  health_monitoring_active : Bool
  setup_complete : Bool
  was_good_before : Bool
  retry_count : Nat
  max_retries : Nat
  consecutive_disconnects : Nat
  max_consecutive_disconnects : Nat
deriving DecidableEq

/-- The field values set by `ChromeProxyAutomation.__init__`
(main.py lines 196-202). -/
def initialWorkerState : WorkerState :=
  { health_monitoring_active := false
    setup_complete := false
    was_good_before := false
    retry_count := 0
    max_retries := 3
    consecutive_disconnects := 0
    max_consecutive_disconnects := 3 }

/-- The counter/flag update performed by one iteration of
`monitor_extension_health` on observing a health label
(main.py lines 456-463): a healthy observation sets `was_good_before` and
resets `consecutive_disconnects`, an unhealthy one increments it. -/
def observeHealth (s : WorkerState) (label : String) : WorkerState :=
  if isGoodLabel label then
    { s with was_good_before := true, consecutive_disconnects := 0 }
  else
    { s with consecutive_disconnects := s.consecutive_disconnects + 1 }

/-- The retry condition consulted by the monitoring loop after the counter
update (main.py lines 469-471): `was_good_before and not is_good and
consecutive_disconnects >= max_consecutive_disconnects and
retry_count < max_retries`. -/
def retryDecision (s : WorkerState) (is_good : Bool) : Bool :=
  s.was_good_before && !is_good
    && decide (s.max_consecutive_disconnects ≤ s.consecutive_disconnects)
    && decide (s.retry_count < s.max_retries)

/-- The state effect of `initiate_retry` (main.py lines 831-856): increment
the retry counter, stop the poll loop, release the browser and profile
(outside the embedding), reset the consecutive-disconnect counter and the
setup flag.  `was_good_before` and the budget fields are not touched. -/
def initiate_retry (s : WorkerState) : WorkerState :=
  { s with retry_count := s.retry_count + 1
           health_monitoring_active := false
           consecutive_disconnects := 0
           setup_complete := false }

/-- One iteration of the `monitor_extension_health` loop: record the
observation, consult the retry condition, and enter the retry protocol
exactly when it holds (main.py lines 445-475). -/
def monitor_step (s : WorkerState) (label : String) : WorkerState :=
  let s1 := observeHealth s label
  if retryDecision s1 (isGoodLabel label) then initiate_retry s1 else s1

/-- A worker run over a sequence of poll observations, with retry
invocations fired exactly when the monitoring loop's condition holds. -/
def monitor_run (s : WorkerState) (labels : List String) : WorkerState :=
  labels.foldl monitor_step s

/-- The spec's pure decision function `shouldRetry`, written from the
spec's words (§4.2), to be compared with the source's inlined condition:
`wasEverHealthy AND consecutiveUnhealthyChecks >= unhealthyThreshold AND
retryCount < maxRetries`. -/
def shouldRetrySpec (wasEverHealthy : Bool)
    (consecutiveUnhealthyChecks unhealthyThreshold retryCount maxRetries : Nat) : Bool :=
  wasEverHealthy && decide (unhealthyThreshold ≤ consecutiveUnhealthyChecks)
    && decide (retryCount < maxRetries)

/-- Success/failure outcome of each stage of the setup pipeline, were that
stage to run (the pipeline decides which stages actually run).  Stage 1
covers both the presence of a proxy line and `parse_proxy_data`
succeeding (main.py lines 924-933). -/
structure StageOutcomes where
  parse_proxy_ok : Bool
  create_temp_profile_ok : Bool
  start_chrome_ok : Bool
  setup_proxy_ok : Bool
  connect_to_proxy_ok : Bool
  setup_gradient_extension_ok : Bool
deriving DecidableEq

/-- Whether a pipeline stage's failure aborts the run (`return False`) or
only logs a warning and proceeds. -/
inductive StageKind
  | mandatory
  | bestEffort
deriving DecidableEq

/-- The six stages of `run_account_setup_internal` in source order
(main.py lines 920-976): 1 parse proxy, 2 create temp profile,
3 start Chrome, 4 setup proxy [warning only], 5 connect to proxy
[warning only], 6 setup gradient extension. -/
def pipeline_stages (o : StageOutcomes) : List (Nat × StageKind × Bool) :=
  [(1, .mandatory, o.parse_proxy_ok),
   (2, .mandatory, o.create_temp_profile_ok),
   (3, .mandatory, o.start_chrome_ok),
   (4, .bestEffort, o.setup_proxy_ok),
   (5, .bestEffort, o.connect_to_proxy_ok),
   (6, .mandatory, o.setup_gradient_extension_ok)]

/-- Sequential execution of pipeline stages: a failed mandatory stage
returns `False` immediately; a failed best-effort stage logs a warning and
continues.  Returns overall success and the stage numbers executed, in
execution order. -/
def run_pipeline : List (Nat × StageKind × Bool) → Bool × List Nat
  | [] => (true, [])
  | (n, k, ok) :: rest =>
    match k, ok with
    | .mandatory, false => (false, [n])
    | _, _ =>
      let r := run_pipeline rest
      (r.1, n :: r.2)

/-- `run_account_setup_internal` (main.py lines 920-976). -/
def run_account_setup_internal (o : StageOutcomes) : Bool × List Nat :=
  run_pipeline (pipeline_stages o)

/-- `run_account_setup` (main.py lines 1003-1024): run the internal
pipeline; on success set `setup_complete` (line 971) and start the
health-monitoring thread, whose first action is
`health_monitoring_active = True` (line 442); on failure return `False`
with the worker's fields untouched — in particular `retry_count` is never
written on this path. -/
def run_account_setup (w : WorkerState) (o : StageOutcomes) : WorkerState × Bool :=
  if (run_account_setup_internal o).1 then
    ({ w with setup_complete := true, health_monitoring_active := true }, true)
  else
    (w, false)

/-- Characters before the first occurrence of `sep`
(the head of Python `str.partition(sep)`; the whole list when absent). -/
def beforeChar (sep : Char) (l : List Char) : List Char :=
  l.takeWhile (fun c => c != sep)

/-- Characters after the first occurrence of `sep`
(the tail of Python `str.partition(sep)`; empty when absent). -/
def afterChar (sep : Char) (l : List Char) : List Char :=
  (l.dropWhile (fun c => c != sep)).drop 1

/-- Characters after the last occurrence of `sep`
(the tail of Python `str.rpartition(sep)`; the whole list when absent). -/
def afterLastChar (sep : Char) (l : List Char) : List Char :=
  (l.reverse.takeWhile (fun c => c != sep)).reverse

/-- One parsed account record (`parse_all_accounts` builds dictionaries
with keys `email` and `password`, main.py lines 269-272). -/
structure AccountData where
  email : String
  password : String
deriving DecidableEq

/-- `parse_all_accounts` (main.py lines 256-283): strip each line; for a
non-empty line containing a colon, split at the first colon
(`line.split(':', 1)`), strip both halves and keep the record; other
non-empty lines are skipped with a warning and blank lines silently;
in every case parsing continues with the next line.  File I/O is outside
the embedding: the input is the list of raw lines. -/
def parse_all_accounts : List String → List AccountData
  | [] => []
  | line :: rest =>
    let t := pythonStrip line
    if t ≠ "" ∧ ':' ∈ t.data then
      { email := pythonStrip (String.mk (beforeChar ':' t.data))
        password := pythonStrip (String.mk (afterChar ':' t.data)) }
        :: parse_all_accounts rest
    else
      parse_all_accounts rest

/-- Characters allowed in a URL scheme
(`urllib.parse.scheme_chars`: letters, digits, `+`, `-`, `.`). -/
def scheme_chars (c : Char) : Bool :=
  c.isAlphanum || c == '+' || c == '-' || c == '.'

/-- Modelled from Python `urllib.parse.urlsplit`: when the text before the
first colon is a valid scheme (starts with an ASCII letter, all characters
in `scheme_chars`), the scheme and the colon are stripped. -/
def stripScheme (url : List Char) : List Char :=
  match url.findIdx? (fun c => c == ':') with
  | none => url
  | some i =>
    if 0 < i ∧ (url.headD ' ').isAlpha = true ∧ (url.take i).all scheme_chars = true then
      url.drop (i + 1)
    else url

/-- Modelled from `urlsplit`: after scheme stripping, the netloc is the
part after a leading `//`, up to the first `/`, `?` or `#`; it is empty
when the remainder does not start with `//`. -/
def netlocOf (url : List Char) : List Char :=
  let rest := stripScheme url
  if rest.take 2 = ['/', '/'] then
    (rest.drop 2).takeWhile (fun c => !(c == '/' || c == '?' || c == '#'))
  else []

/-- Modelled from `urlsplit`: a netloc containing one of `[`, `]` without
the other raises `ValueError` ("Invalid IPv6 URL"). -/
def invalidIPv6 (netloc : List Char) : Bool :=
  (netloc.contains '[' && !(netloc.contains ']'))
    || (netloc.contains ']' && !(netloc.contains '['))

/-- Modelled from `SplitResult._hostinfo`: drop the userinfo (everything
up to the last `@`), then split the remainder into host text and port
text, honouring a bracketed IPv6 host. -/
def hostinfoOf (netloc : List Char) : List Char × List Char :=
  let hostport := afterLastChar '@' netloc
  if hostport.contains '[' then
    let bracketed := afterChar '[' hostport
    (beforeChar ']' bracketed, afterChar ':' (afterChar ']' bracketed))
  else
    (beforeChar ':' hostport, afterChar ':' hostport)

/-- Modelled from `SplitResult.hostname`: `None` when the host text is
empty, otherwise the host text lowercased. -/
def hostnameVal (hn : List Char) : Option (List Char) :=
  if hn = [] then none else some (hn.map Char.toLower)

/-- Decimal parse of a nonempty digit string, modelling `int(port, 10)`
on the digit-only strings a proxy line carries (signs, underscores and
surrounding whitespace accepted by Python `int` are not modelled). -/
def digitsToNat? (cs : List Char) : Option Nat :=
  if cs ≠ [] ∧ cs.all Char.isDigit = true then
    some (cs.foldl (fun n c => n * 10 + (c.toNat - Char.toNat '0')) 0)
  else none

/-- Result of reading `SplitResult.port`. -/
inductive PortResult
  | absent
  | value (p : Nat)
  | invalid
deriving DecidableEq

/-- Modelled from `SplitResult.port`: `None` when the port text is empty;
the integer value when it parses and lies in `[0, 65535]`; a `ValueError`
otherwise. -/
def portVal (cs : List Char) : PortResult :=
  if cs = [] then .absent
  else
    match digitsToNat? cs with
    | some p => if p ≤ 65535 then .value p else .invalid
    | none => .invalid

/-- The hostname and port of a URL-shaped line as observed by
`parse_all_proxies`; `none` models `urlparse` itself raising. -/
def urlparse_hostport (url : List Char) : Option (Option (List Char) × PortResult) :=
  let netloc := netlocOf url
  if invalidIPv6 netloc then none
  else
    let hp := hostinfoOf netloc
    some (hostnameVal hp.1, portVal hp.2)

/-- The per-line acceptance test of `parse_all_proxies` (main.py line 241):
`if parsed.hostname and parsed.port`.  Any exception — from `urlparse`
itself or from the `.port` property — is caught by the surrounding
`except` and the line is skipped with a warning; Python truthiness makes
both a `None` hostname and a port of 0 falsy. -/
def proxyLineAccept (url : List Char) : Bool :=
  match urlparse_hostport url with
  | none => false
  | some (hn, pr) =>
    hn.isSome && (match pr with
      | .value p => decide (p ≠ 0)
      | _ => false)

/-- `parse_all_proxies` (main.py lines 226-254): strip each line, skip
blank lines, and keep — in file order — exactly the stripped lines whose
parsed URL has a truthy hostname and a truthy port; every reject is a
per-line warning, never fatal.  File I/O is outside the embedding: the
input is the list of raw lines. -/
def parse_all_proxies : List String → List String
  | [] => []
  | line :: rest =>
    let t := pythonStrip line
    if t = "" then parse_all_proxies rest
    else if proxyLineAccept t.data then t :: parse_all_proxies rest
    else parse_all_proxies rest

/-- The three fleet-precondition failures of `run_all_accounts`
(main.py lines 1053-1068), each reported with its own error message. -/
inductive PreconditionError
  | noAccounts
  | noProxies
  | insufficientProxies
deriving DecidableEq

/-- The outcome of `MultiAccountManager.run_all_accounts` up to worker
launch: either a reported precondition failure (the method returns
`False` before creating any automation instance), or the list of
launched worker ids. -/
inductive RunOutcome
  | preconditionFailure (e : PreconditionError)
  | launched (workerIds : List Nat)
deriving DecidableEq

/-- `run_all_accounts` (main.py lines 1046-1091): parse accounts and
proxies, fail on an empty account list, an empty proxy list, or a proxy
shortage; otherwise create one `ChromeProxyAutomation` per account with
1-based ids, account `i` paired with proxy `i`. -/
def run_all_accounts (accountLines proxyLines : List String) : RunOutcome :=
  let accounts_data := parse_all_accounts accountLines
  if accounts_data = [] then .preconditionFailure .noAccounts
  else
    let proxies_data := parse_all_proxies proxyLines
    if proxies_data = [] then .preconditionFailure .noProxies
    else if proxies_data.length < accounts_data.length then
      .preconditionFailure .insufficientProxies
    else
      .launched ((List.range accounts_data.length).map (fun i => i + 1))

/-- The worker ids launched by a run. -/
def launchedWorkers : RunOutcome → List Nat
  | .preconditionFailure _ => []
  | .launched ids => ids

/-- The `__main__` block (main.py lines 1196-1198): it calls
`run_all_accounts` and discards the returned value; no `sys.exit` is ever
called and `run_all_accounts` returns rather than raises on every path
above (its `try` blocks swallow exceptions), so the interpreter exits
with status 0.  The pair is (what the run did, the process exit status). -/
def python_main (accountLines proxyLines : List String) : RunOutcome × Nat :=
  (run_all_accounts accountLines proxyLines, 0)

/-- `MultiAccountManager.__init__` (main.py line 1030): the 30-second
stagger between account setups. -/
def setup_delay : Nat := 30

/-- `setup_account_with_delay` (main.py lines 1122-1129): the worker at
0-based `account_index` sleeps `account_index * setup_delay` before
starting its setup; the worker at index 0 does not sleep. -/
def launch_delay (account_index : Nat) : Nat :=
  if 0 < account_index then account_index * setup_delay else 0

/-! ## Helper lemmas about the monitoring step -/

theorem observeHealth_retry_count (s : WorkerState) (label : String) :
    (observeHealth s label).retry_count = s.retry_count := by
  unfold observeHealth; split <;> rfl

theorem observeHealth_max_retries (s : WorkerState) (label : String) :
    (observeHealth s label).max_retries = s.max_retries := by
  unfold observeHealth; split <;> rfl

theorem monitor_step_retry_le (s : WorkerState) (label : String)
    (h : s.retry_count ≤ s.max_retries) :
    (monitor_step s label).retry_count ≤ (monitor_step s label).max_retries := by
  simp only [monitor_step]
  split
  · rename_i hdec
    have hlt : (observeHealth s label).retry_count < (observeHealth s label).max_retries := by
      simp only [retryDecision, Bool.and_eq_true, decide_eq_true_eq] at hdec
      exact hdec.2
    show (observeHealth s label).retry_count + 1 ≤ (observeHealth s label).max_retries
    omega
  · rw [observeHealth_retry_count, observeHealth_max_retries]; exact h

theorem monitor_run_retry_le_aux (labels : List String) (s : WorkerState)
    (h : s.retry_count ≤ s.max_retries) :
    (monitor_run s labels).retry_count ≤ (monitor_run s labels).max_retries := by
  induction labels generalizing s with
  | nil => exact h
  | cons l ls ih => exact ih (monitor_step s l) (monitor_step_retry_le s l h)

theorem monitor_step_at_budget (s : WorkerState) (label : String)
    (h : s.retry_count = s.max_retries) :
    retryDecision (observeHealth s label) (isGoodLabel label) = false ∧
    (monitor_step s label).retry_count = s.retry_count := by
  have hdec : retryDecision (observeHealth s label) (isGoodLabel label) = false := by
    simp [retryDecision, observeHealth_retry_count, observeHealth_max_retries, h]
  refine ⟨hdec, ?_⟩
  simp only [monitor_step, hdec]
  simp [observeHealth_retry_count]

theorem monitor_run_never_healthy_aux (labels : List String) (s : WorkerState)
    (hw : s.was_good_before = false)
    (h : ∀ l ∈ labels, isGoodLabel l = false) :
    (monitor_run s labels).was_good_before = false
    ∧ (monitor_run s labels).retry_count = s.retry_count := by
  induction labels generalizing s with
  | nil => exact ⟨hw, rfl⟩
  | cons l ls ih =>
    have hl : isGoodLabel l = false := h l (List.mem_cons_self l ls)
    have hobs : observeHealth s l
        = { s with consecutive_disconnects := s.consecutive_disconnects + 1 } := by
      simp [observeHealth, hl]
    have hdec : retryDecision (observeHealth s l) (isGoodLabel l) = false := by
      rw [hobs]
      simp [retryDecision, hw]
    have hstep : monitor_step s l
        = { s with consecutive_disconnects := s.consecutive_disconnects + 1 } := by
      simp only [monitor_step, hdec]
      simpa using hobs
    have hrest := ih ({ s with consecutive_disconnects := s.consecutive_disconnects + 1 })
      hw (fun l' hl' => h l' (List.mem_cons_of_mem l hl'))
    rw [show monitor_run s (l :: ls) = monitor_run (monitor_step s l) ls from rfl, hstep]
    exact hrest

/-! ## Claims about the retry decision and the monitoring loop -/

/-- C1: for every worker state whose unhealthy threshold is at least 1
(the source fixes `max_consecutive_disconnects` at 3) and every observed
label, the retry condition consulted by the monitoring loop after the
counter update returns true iff `was_good_before` holds, the updated
`consecutive_disconnects` has reached the threshold, and
`retry_count < max_retries` — i.e. it coincides with the spec's pure
`shouldRetry` on the updated valuation. -/
theorem monitor_retry_decision_matches_spec (s : WorkerState) (label : String)
    (hthr : 1 ≤ s.max_consecutive_disconnects) :
    retryDecision (observeHealth s label) (isGoodLabel label)
      = shouldRetrySpec (observeHealth s label).was_good_before
          (observeHealth s label).consecutive_disconnects
          (observeHealth s label).max_consecutive_disconnects
          (observeHealth s label).retry_count
          (observeHealth s label).max_retries := by
  by_cases hg : isGoodLabel label = true
  · have h0 : decide (s.max_consecutive_disconnects ≤ 0) = false := by
      simp only [decide_eq_false_iff_not]
      omega
    simp [observeHealth, retryDecision, shouldRetrySpec, hg, h0]
    omega
  · have hg' : isGoodLabel label = false := by
      cases hx : isGoodLabel label
      · rfl
      · exact absurd hx hg
    simp [observeHealth, retryDecision, shouldRetrySpec, hg']

theorem monitor_retry_decision_matches_spec_witness :
    1 ≤ ({ initialWorkerState with
            was_good_before := true,
            consecutive_disconnects := 2 } : WorkerState).max_consecutive_disconnects
    ∧ retryDecision
        (observeHealth { initialWorkerState with
            was_good_before := true, consecutive_disconnects := 2 } "Bad")
        (isGoodLabel "Bad")
      = shouldRetrySpec
          (observeHealth { initialWorkerState with
              was_good_before := true, consecutive_disconnects := 2 } "Bad").was_good_before
          (observeHealth { initialWorkerState with
              was_good_before := true, consecutive_disconnects := 2 } "Bad").consecutive_disconnects
          (observeHealth { initialWorkerState with
              was_good_before := true, consecutive_disconnects := 2 } "Bad").max_consecutive_disconnects
          (observeHealth { initialWorkerState with
              was_good_before := true, consecutive_disconnects := 2 } "Bad").retry_count
          (observeHealth { initialWorkerState with
              was_good_before := true, consecutive_disconnects := 2 } "Bad").max_retries :=
  ⟨by decide,
   monitor_retry_decision_matches_spec
     { initialWorkerState with was_good_before := true, consecutive_disconnects := 2 }
     "Bad" (by decide)⟩

/-- C2: in every state reachable from a fresh worker by any sequence of
poll observations (with retry invocations fired exactly when the
monitoring loop's condition holds), `retry_count ≤ max_retries`; and once
`retry_count` equals `max_retries`, a further degradation observation
never makes the retry condition true and never increments the counter. -/
theorem retry_budget_invariant (labels : List String) :
    (monitor_run initialWorkerState labels).retry_count
        ≤ (monitor_run initialWorkerState labels).max_retries
    ∧ ∀ label : String,
        (monitor_run initialWorkerState labels).retry_count
            = (monitor_run initialWorkerState labels).max_retries →
        retryDecision (observeHealth (monitor_run initialWorkerState labels) label)
            (isGoodLabel label) = false
        ∧ (monitor_step (monitor_run initialWorkerState labels) label).retry_count
            = (monitor_run initialWorkerState labels).retry_count := by
  refine ⟨monitor_run_retry_le_aux labels initialWorkerState (by decide), ?_⟩
  intro label h
  exact monitor_step_at_budget _ label h

theorem retry_budget_invariant_witness :
    (monitor_run initialWorkerState
        ["Good", "Bad", "Bad", "Bad", "Bad", "Bad", "Bad", "Bad", "Bad", "Bad"]).retry_count
      = (monitor_run initialWorkerState
        ["Good", "Bad", "Bad", "Bad", "Bad", "Bad", "Bad", "Bad", "Bad", "Bad"]).max_retries
    ∧ retryDecision
        (observeHealth
          (monitor_run initialWorkerState
            ["Good", "Bad", "Bad", "Bad", "Bad", "Bad", "Bad", "Bad", "Bad", "Bad"]) "Bad")
        (isGoodLabel "Bad") = false
    ∧ (monitor_step
        (monitor_run initialWorkerState
          ["Good", "Bad", "Bad", "Bad", "Bad", "Bad", "Bad", "Bad", "Bad", "Bad"]) "Bad").retry_count
      = (monitor_run initialWorkerState
          ["Good", "Bad", "Bad", "Bad", "Bad", "Bad", "Bad", "Bad", "Bad", "Bad"]).retry_count :=
  ⟨by decide,
   ((retry_budget_invariant
      ["Good", "Bad", "Bad", "Bad", "Bad", "Bad", "Bad", "Bad", "Bad", "Bad"]).2
      "Bad" (by decide)).1,
   ((retry_budget_invariant
      ["Good", "Bad", "Bad", "Bad", "Bad", "Bad", "Bad", "Bad", "Bad", "Bad"]).2
      "Bad" (by decide)).2⟩

/-- C4: a worker that never observes a healthy poll (so `was_good_before`
stays false) never triggers a retry — `retry_count` remains 0 — no matter
how many consecutive unhealthy observations accumulate. -/
theorem never_healthy_never_retries (labels : List String)
    (h : ∀ l ∈ labels, isGoodLabel l = false) :
    (monitor_run initialWorkerState labels).retry_count = 0 :=
  (monitor_run_never_healthy_aux labels initialWorkerState rfl h).2

theorem never_healthy_never_retries_witness :
    (∀ l ∈ (["Unknown", "Error", "Bad", "Bad", "Bad", "Bad"] : List String),
        isGoodLabel l = false)
    ∧ (monitor_run initialWorkerState
        ["Unknown", "Error", "Bad", "Bad", "Bad", "Bad"]).retry_count = 0 :=
  ⟨by decide,
   never_healthy_never_retries ["Unknown", "Error", "Bad", "Bad", "Bad", "Bad"] (by decide)⟩

/-- C6: a label classifies as healthy iff it case-insensitively equals
the literal "good"; the labels "Unknown" and "Error" (unreadable element,
query failure) classify as unhealthy; a healthy observation sets
`was_good_before` and resets the consecutive-unhealthy counter to 0, an
unhealthy one increments it by 1. -/
theorem health_classification_and_counters (label : String) (s : WorkerState) :
    (isGoodLabel label = true ↔ pythonLower label = pythonLower "good")
    ∧ isGoodLabel "Unknown" = false
    ∧ isGoodLabel "Error" = false
    ∧ (isGoodLabel label = true →
        observeHealth s label
          = { s with was_good_before := true, consecutive_disconnects := 0 })
    ∧ (isGoodLabel label = false →
        observeHealth s label
          = { s with consecutive_disconnects := s.consecutive_disconnects + 1 }) := by
  refine ⟨?_, by decide, by decide, ?_, ?_⟩
  · have hg : pythonLower "good" = "good" := by decide
    rw [hg]
    simp [isGoodLabel]
  · intro h
    simp [observeHealth, h]
  · intro h
    simp [observeHealth, h]

theorem health_classification_and_counters_witness :
    isGoodLabel "Good" = true
    ∧ observeHealth initialWorkerState "Good"
        = { initialWorkerState with was_good_before := true, consecutive_disconnects := 0 }
    ∧ isGoodLabel "Bad" = false
    ∧ observeHealth initialWorkerState "Bad"
        = { initialWorkerState with
              consecutive_disconnects := initialWorkerState.consecutive_disconnects + 1 } :=
  ⟨by decide,
   (health_classification_and_counters "Good" initialWorkerState).2.2.2.1 (by decide),
   by decide,
   (health_classification_and_counters "Bad" initialWorkerState).2.2.2.2 (by decide)⟩

/-! ## Claims about the setup pipeline -/

/-- C5: the pipeline runs stages 1..6 strictly in order; a failure of
stage 4 (proxy configuration) or stage 5 (proxy connection) does not
affect the overall result and later stages still execute, while a failure
of stage 1, 2, 3 or 6 makes the run fail, and a failed stage 1, 2 or 3
prevents every later stage from executing. -/
theorem pipeline_stage_order_and_fatality (s1 s2 s3 s4 s5 s6 : Bool) :
    (run_account_setup_internal ⟨s1, s2, s3, s4, s5, s6⟩).1 = (s1 && s2 && s3 && s6)
    ∧ (run_account_setup_internal ⟨s1, s2, s3, s4, s5, s6⟩).2
        = (if s1 = false then [1]
           else if s2 = false then [1, 2]
           else if s3 = false then [1, 2, 3]
           else [1, 2, 3, 4, 5, 6]) := by
  cases s1 <;> cases s2 <;> cases s3 <;> cases s4 <;> cases s5 <;> cases s6 <;>
    exact ⟨by decide, by decide⟩

theorem run_account_setup_internal_success (o : StageOutcomes) :
    (run_account_setup_internal o).1
      = (o.parse_proxy_ok && o.create_temp_profile_ok && o.start_chrome_ok
          && o.setup_gradient_extension_ok) := by
  rcases o with ⟨s1, s2, s3, s4, s5, s6⟩
  cases s1 <;> cases s2 <;> cases s3 <;> cases s4 <;> cases s5 <;> cases s6 <;> rfl

/-- C8: when a fresh worker's initial setup pipeline fails on a mandatory
stage, the setup call returns failure, the health-poll loop is never
started, and the worker's `retry_count` is still 0 — pre-monitoring
failures consume no retry budget. -/
theorem setup_failure_no_monitoring_no_retry (o : StageOutcomes)
    (h : (o.parse_proxy_ok && o.create_temp_profile_ok && o.start_chrome_ok
          && o.setup_gradient_extension_ok) = false) :
    (run_account_setup initialWorkerState o).2 = false
    ∧ (run_account_setup initialWorkerState o).1.health_monitoring_active = false
    ∧ (run_account_setup initialWorkerState o).1.retry_count = 0 := by
  have hfail : (run_account_setup_internal o).1 = false := by
    rw [run_account_setup_internal_success]
    exact h
  simp [run_account_setup, hfail, initialWorkerState]

theorem setup_failure_no_monitoring_no_retry_witness :
    ((StageOutcomes.mk true true true true true false).parse_proxy_ok
        && (StageOutcomes.mk true true true true true false).create_temp_profile_ok
        && (StageOutcomes.mk true true true true true false).start_chrome_ok
        && (StageOutcomes.mk true true true true true false).setup_gradient_extension_ok) = false
    ∧ (run_account_setup initialWorkerState ⟨true, true, true, true, true, false⟩).2 = false
    ∧ (run_account_setup initialWorkerState
        ⟨true, true, true, true, true, false⟩).1.health_monitoring_active = false
    ∧ (run_account_setup initialWorkerState
        ⟨true, true, true, true, true, false⟩).1.retry_count = 0 :=
  ⟨by decide,
   setup_failure_no_monitoring_no_retry ⟨true, true, true, true, true, false⟩ (by decide)⟩

/-! ## Claims about the fleet manager -/

/-- C3 counterexample: with no parsable accounts the fleet preconditions
fail and `run_all_accounts` reports the failure, yet the process exit
status modelled from the `__main__` block is 0 — not the non-zero exit
the claim states. -/
theorem precondition_failure_exit_zero_counterexample :
    run_all_accounts [] [] = RunOutcome.preconditionFailure PreconditionError.noAccounts
    ∧ (python_main [] []).2 = 0 :=
  ⟨rfl, rfl⟩

/-- C3 (amended): if the parsed account list is empty, the parsed proxy
list is empty, or there are fewer proxies than accounts, the run reports a
precondition failure and launches no worker; the process exit status is
nevertheless 0, because `__main__` discards the result of
`run_all_accounts` and never calls `sys.exit`. -/
theorem precondition_failure_reported_no_launch
    (accountLines proxyLines : List String)
    (h : parse_all_accounts accountLines = []
         ∨ parse_all_proxies proxyLines = []
         ∨ (parse_all_proxies proxyLines).length < (parse_all_accounts accountLines).length) :
    (∃ e, run_all_accounts accountLines proxyLines = RunOutcome.preconditionFailure e)
    ∧ launchedWorkers (run_all_accounts accountLines proxyLines) = []
    ∧ (python_main accountLines proxyLines).2 = 0 := by
  have hout : ∃ e, run_all_accounts accountLines proxyLines
      = RunOutcome.preconditionFailure e := by
    unfold run_all_accounts
    by_cases h1 : parse_all_accounts accountLines = []
    · exact ⟨.noAccounts, by simp [h1]⟩
    · by_cases h2 : parse_all_proxies proxyLines = []
      · exact ⟨.noProxies, by simp [h1, h2]⟩
      · have h3 : (parse_all_proxies proxyLines).length
            < (parse_all_accounts accountLines).length := by
          rcases h with h | h | h
          · exact absurd h h1
          · exact absurd h h2
          · exact h
        exact ⟨.insufficientProxies, by simp [h1, h2, h3]⟩
  obtain ⟨e, he⟩ := hout
  refine ⟨⟨e, he⟩, ?_, rfl⟩
  rw [he]
  rfl

theorem precondition_failure_reported_no_launch_witness :
    (parse_all_proxies ["http://u1:pw1@h1:1000"]).length
        < (parse_all_accounts ["a@x.com:p1", "b@x.com:p2"]).length
    ∧ (∃ e, run_all_accounts ["a@x.com:p1", "b@x.com:p2"] ["http://u1:pw1@h1:1000"]
          = RunOutcome.preconditionFailure e)
    ∧ launchedWorkers
        (run_all_accounts ["a@x.com:p1", "b@x.com:p2"] ["http://u1:pw1@h1:1000"]) = []
    ∧ (python_main ["a@x.com:p1", "b@x.com:p2"] ["http://u1:pw1@h1:1000"]).2 = 0 :=
  ⟨by decide,
   precondition_failure_reported_no_launch ["a@x.com:p1", "b@x.com:p2"]
     ["http://u1:pw1@h1:1000"] (Or.inr (Or.inr (by decide)))⟩

/-- C7: the worker at 0-based account index `i` begins its setup `i * 30`
time units after fleet-launch start: index 0 has no delay, and each
successive worker starts exactly one `setup_delay` (30 time units) after
the previous one. -/
theorem staggered_launch_delay (i : Nat) :
    launch_delay i = i * 30
    ∧ launch_delay 0 = 0
    ∧ launch_delay (i + 1) = launch_delay i + 30 := by
  refine ⟨?_, rfl, ?_⟩
  · cases i with
    | zero => rfl
    | succ n => simp [launch_delay, setup_delay]
  · cases i with
    | zero => rfl
    | succ n =>
      simp only [launch_delay, setup_delay]
      simp
      ring

/-! ## Claims about the input parsers -/

/-- C9 counterexample: the stripped line "http://h:0" parses to hostname
`h` and port 0 — it has both a hostname and a port — yet
`parse_all_proxies` rejects it, because the truthiness test
`parsed.hostname and parsed.port` treats port 0 as falsy. -/
theorem proxy_port_zero_rejected_counterexample :
    urlparse_hostport ("http://h:0" : String).data
        = some (some ['h'], PortResult.value 0)
    ∧ pythonStrip "http://h:0" = "http://h:0"
    ∧ parse_all_proxies ["http://h:0"] = [] :=
  ⟨by decide, by decide, by decide⟩

/-- C9 (amended): for every line of the proxy input: a blank line is
ignored; a non-blank line lacking both hostname and port is skipped and
parsing of the remaining lines continues (never fatal); a non-blank line
whose parsed URL has a hostname and a valid **nonzero** port is accepted
and appended in file order (a line with port 0 is skipped like other
invalid lines, since the acceptance test treats port 0 as falsy). -/
theorem proxy_line_parsing (line : String) (rest : List String) :
    (pythonStrip line = "" → parse_all_proxies (line :: rest) = parse_all_proxies rest)
    ∧ (pythonStrip line ≠ "" →
        urlparse_hostport (pythonStrip line).data = some (none, PortResult.absent) →
        parse_all_proxies (line :: rest) = parse_all_proxies rest)
    ∧ (∀ hchars p, pythonStrip line ≠ "" →
        urlparse_hostport (pythonStrip line).data = some (some hchars, PortResult.value p) →
        p ≠ 0 →
        parse_all_proxies (line :: rest)
          = pythonStrip line :: parse_all_proxies rest) := by
  refine ⟨?_, ?_, ?_⟩
  · intro h
    simp only [parse_all_proxies]
    rw [if_pos h]
  · intro hne hurl
    have hacc : proxyLineAccept (pythonStrip line).data = false := by
      simp [proxyLineAccept, hurl]
    simp only [parse_all_proxies]
    rw [if_neg hne, if_neg (by simp [hacc])]
  · intro hchars p hne hurl hp
    have hacc : proxyLineAccept (pythonStrip line).data = true := by
      simp [proxyLineAccept, hurl, hp]
    simp only [parse_all_proxies]
    rw [if_neg hne, if_pos (by simp [hacc])]

theorem proxy_line_parsing_witness :
    pythonStrip "  " = ""
    ∧ parse_all_proxies ["  ", "x y"] = parse_all_proxies ["x y"]
    ∧ pythonStrip "x y" ≠ ""
    ∧ urlparse_hostport (pythonStrip "x y").data = some (none, PortResult.absent)
    ∧ parse_all_proxies ["x y", "http://u:p@h:80"] = parse_all_proxies ["http://u:p@h:80"]
    ∧ urlparse_hostport (pythonStrip "http://u:p@h:80").data
        = some (some ['h'], PortResult.value 80)
    ∧ parse_all_proxies ["http://u:p@h:80"]
        = pythonStrip "http://u:p@h:80" :: parse_all_proxies [] :=
  ⟨by decide,
   (proxy_line_parsing "  " ["x y"]).1 (by decide),
   by decide,
   by decide,
   (proxy_line_parsing "x y" ["http://u:p@h:80"]).2.1 (by decide) (by decide),
   by decide,
   (proxy_line_parsing "http://u:p@h:80" []).2.2 ['h'] 80 (by decide) (by decide) (by decide)⟩

theorem split_first_colon (a b : List Char) (h : ':' ∉ a) :
    beforeChar ':' (a ++ ':' :: b) = a ∧ afterChar ':' (a ++ ':' :: b) = b := by
  induction a with
  | nil =>
    constructor
    · simp [beforeChar]
    · simp [afterChar]
  | cons c cs ih =>
    have hc : c ≠ ':' := by
      intro hx
      exact h (hx ▸ List.mem_cons_self c cs)
    have hcb : (c != ':') = true := by
      simpa [bne_iff_ne] using hc
    obtain ⟨ih1, ih2⟩ := ih (fun hx => h (List.mem_cons_of_mem c hx))
    constructor
    · simpa [beforeChar, List.takeWhile_cons, hcb] using ih1
    · simpa [afterChar, List.dropWhile_cons, hcb] using ih2

/-- C10: account-line parsing splits the stripped line at the first colon
only — the text before it (stripped) becomes the email and everything
after it (stripped, possibly itself containing further colons) becomes
the secret — and a non-blank line with no colon is skipped while parsing
continues with the remaining lines. -/
theorem account_line_first_colon_split (line : String) (rest : List String) :
    (∀ a b : List Char, ':' ∉ a →
        (pythonStrip line).data = a ++ ':' :: b →
        parse_all_accounts (line :: rest)
          = { email := pythonStrip (String.mk a),
              password := pythonStrip (String.mk b) }
              :: parse_all_accounts rest)
    ∧ (pythonStrip line ≠ "" → ':' ∉ (pythonStrip line).data →
        parse_all_accounts (line :: rest) = parse_all_accounts rest) := by
  constructor
  · intro a b ha hdata
    have hne : pythonStrip line ≠ "" := by
      intro hx
      rw [hx] at hdata
      simp at hdata
    have hmem : ':' ∈ (pythonStrip line).data := by
      rw [hdata]
      exact List.mem_append_right a (List.mem_cons_self ':' b)
    simp only [parse_all_accounts]
    rw [if_pos ⟨hne, hmem⟩, hdata,
        (split_first_colon a b ha).1, (split_first_colon a b ha).2]
  · intro hne hnc
    simp only [parse_all_accounts]
    rw [if_neg (fun hcond => hnc hcond.2)]

theorem account_line_first_colon_split_witness :
    (':' ∉ ("u@x.com" : String).data)
    ∧ (pythonStrip " u@x.com:pa:ss ").data
        = ("u@x.com" : String).data ++ ':' :: ("pa:ss" : String).data
    ∧ parse_all_accounts [" u@x.com:pa:ss "]
        = { email := pythonStrip (String.mk ("u@x.com" : String).data),
            password := pythonStrip (String.mk ("pa:ss" : String).data) }
            :: parse_all_accounts [] :=
  ⟨by decide,
   by decide,
   (account_line_first_colon_split " u@x.com:pa:ss " []).1
     ("u@x.com" : String).data ("pa:ss" : String).data (by decide) (by decide)⟩

end GradientBot
